import Mathlib

/-!
Verification of the `py-talentlms` client library.

The library is a thin HTTP client for the TalentLMS REST API
(`talentlms/api.py`, `talentlms/exceptions.py`).  This file gives a shallow
embedding of the parts of the code relevant to the specification claims:

* the byte-level parameter serialization performed by `api._get`
  (`urllib.parse.quote_plus`, the `key:value` pairs, the sort and the
  comma-join, and the URL it requests);
* the JSON response handling shared by `api._get` and `api._post`
  (`json.loads`, the `is not None and 'error' in result` guard, and
  `exceptions.raise_error`);
* the endpoint methods `users`, `edit_user` and `get_timeline`, together
  with the module-level `events` table and the client configuration built
  by `api.__init__`.

Python strings are modelled as their UTF-8 byte sequences (`List Nat`)
where percent-encoding is involved, and as Lean `String`s at the method
and JSON level.  Exceptions are modelled as values: a function that
unconditionally raises exception `e` is embedded as a function returning
(a description of) `e`.
-/

namespace PyTalentLMS

/-- Python `str` values seen as their UTF-8 byte sequences. -/
abbrev ByteStr := List Nat

/-- The bytes of an ASCII Lean string literal. -/
def bsOf (s : String) : ByteStr := s.data.map Char.toNat

/-! ### `urllib.parse.quote_plus` / `unquote_plus`, byte level -/

/-- The bytes `urllib.parse.quote` never encodes regardless of the `safe`
argument: ASCII letters, digits, and `_ . - ~`. -/
def alwaysSafe (b : Nat) : Bool :=
  (0x41 ≤ b && b ≤ 0x5A) || (0x61 ≤ b && b ≤ 0x7A) || (0x30 ≤ b && b ≤ 0x39) ||
  b == 0x2D || b == 0x2E || b == 0x5F || b == 0x7E

/-- Upper-case hexadecimal digit (as an ASCII byte) of a value `n < 16`,
as produced by `urllib.parse.quote`. -/
def hexDigit (n : Nat) : Nat := if n < 10 then 0x30 + n else 0x37 + n

/-- `urllib.parse.quote_plus` on a single byte, given the extra `safe`
byte set: safe bytes pass through, a space becomes `+`, and any other
byte becomes a `%XX` escape. -/
def encodeByte (safe : List Nat) (b : Nat) : List Nat :=
  if alwaysSafe b || safe.contains b then [b]
  else if b = 0x20 then [0x2B]
  else [0x25, hexDigit (b / 16), hexDigit (b % 16)]

/-- `urllib.parse.quote_plus(s, safe)` at the byte level. -/
def quotePlus (safe : List Nat) (s : ByteStr) : ByteStr :=
  (s.map (encodeByte safe)).flatten

/-- Is this ASCII byte a hexadecimal digit (as accepted by
`urllib.parse.unquote`, which allows both cases)? -/
def isHexByte (b : Nat) : Bool :=
  (0x30 ≤ b && b ≤ 0x39) || (0x41 ≤ b && b ≤ 0x46) || (0x61 ≤ b && b ≤ 0x66)

/-- Numeric value of a hexadecimal digit byte. -/
def hexVal (b : Nat) : Nat :=
  if b ≤ 0x39 then b - 0x30 else if b ≤ 0x46 then b - 0x37 else b - 0x57

/-- `urllib.parse.unquote_plus` at the byte level: `+` becomes a space, a
valid `%XX` escape becomes the byte `XX`, and anything else (including a
malformed escape) passes through unchanged. -/
def unquotePlus : ByteStr → ByteStr
  | [] => []
  | b :: rest =>
    if b = 0x25 then
      match rest with
      | h :: l :: rest2 =>
        if isHexByte h && isHexByte l then
          (16 * hexVal h + hexVal l) :: unquotePlus rest2
        else 0x25 :: unquotePlus (h :: l :: rest2)
      | [x] => 0x25 :: unquotePlus [x]
      | [] => [0x25]
    else if b = 0x2B then 0x20 :: unquotePlus rest
    else b :: unquotePlus rest
termination_by s => s.length
decreasing_by all_goals (simp only [List.length_cons]; omega)

theorem quotePlus_nil (safe : List Nat) : quotePlus safe [] = [] := rfl

theorem quotePlus_cons (safe : List Nat) (b : Nat) (s : ByteStr) :
    quotePlus safe (b :: s) = encodeByte safe b ++ quotePlus safe s := by
  simp [quotePlus]

theorem hexDigit_spec : ∀ n, n < 16 →
    isHexByte (hexDigit n) = true ∧ hexVal (hexDigit n) = n := by decide

theorem alwaysSafe_not_special : ∀ b, alwaysSafe b = true →
    b ≠ 0x25 ∧ b ≠ 0x2B ∧ b ≠ 0x20 := by
  intro b h
  refine ⟨?_, ?_, ?_⟩ <;> rintro rfl <;> exact absurd h (by decide)

theorem unquotePlus_cons_plain (b : Nat) (rest : ByteStr)
    (h25 : b ≠ 0x25) (h2b : b ≠ 0x2B) :
    unquotePlus (b :: rest) = b :: unquotePlus rest := by
  rw [unquotePlus.eq_def]
  simp only []
  rw [if_neg h25, if_neg h2b]

theorem unquotePlus_cons_plus (rest : ByteStr) :
    unquotePlus (0x2B :: rest) = 0x20 :: unquotePlus rest := by
  rw [unquotePlus.eq_def]
  simp

theorem unquotePlus_escape (b : Nat) (rest : ByteStr) (hb : b < 256) :
    unquotePlus (0x25 :: hexDigit (b / 16) :: hexDigit (b % 16) :: rest) =
      b :: unquotePlus rest := by
  have h1 : b / 16 < 16 := by omega
  have h2 : b % 16 < 16 := by omega
  obtain ⟨hh1, hv1⟩ := hexDigit_spec _ h1
  obtain ⟨hh2, hv2⟩ := hexDigit_spec _ h2
  simp only [unquotePlus, if_pos rfl, hh1, hh2, Bool.and_self, if_true, hv1, hv2]
  have : 16 * (b / 16) + b % 16 = b := by omega
  rw [this]

/-- Decoding inverts encoding, for any `safe` set free of `%` and `+`
(in the source the `safe` sets are `''` for keys and `'@'` for values). -/
theorem unquotePlus_quotePlus (safe : List Nat)
    (hs : ∀ x ∈ safe, x ≠ 0x25 ∧ x ≠ 0x2B) :
    ∀ s : ByteStr, (∀ b ∈ s, b < 256) →
      unquotePlus (quotePlus safe s) = s := by
  intro s
  induction s with
  | nil => intro _; simp [quotePlus, unquotePlus]
  | cons b rest ih =>
    intro hb
    have hbrest : ∀ x ∈ rest, x < 256 := fun x hx => hb x (List.mem_cons_of_mem _ hx)
    have hb256 : b < 256 := hb b (List.mem_cons_self _ _)
    rw [quotePlus_cons, encodeByte]
    by_cases hsafe : (alwaysSafe b || safe.contains b) = true
    · have hne : b ≠ 0x25 ∧ b ≠ 0x2B := by
        rcases Bool.or_eq_true_iff.mp hsafe with h | h
        · exact ⟨(alwaysSafe_not_special b h).1, (alwaysSafe_not_special b h).2.1⟩
        · exact hs b (List.elem_iff.mp h)
      rw [if_pos hsafe, List.singleton_append,
        unquotePlus_cons_plain b _ hne.1 hne.2, ih hbrest]
    · rw [if_neg hsafe]
      by_cases hsp : b = 0x20
      · subst hsp
        rw [if_pos rfl, List.singleton_append, unquotePlus_cons_plus, ih hbrest]
      · rw [if_neg hsp, List.cons_append, List.cons_append, List.cons_append,
          List.nil_append, unquotePlus_escape b _ hb256, ih hbrest]

/-! ### Python string comparison and the GET parameter segment -/

/-- Python `<=` on strings: lexicographic comparison of code points
(equivalently, of UTF-8 bytes, since UTF-8 is order-preserving). -/
def lexLe : ByteStr → ByteStr → Bool
  | [], _ => true
  | _ :: _, [] => false
  | a :: as, b :: bt => if a < b then true else if b < a then false else lexLe as bt

theorem lexLe_total : ∀ l1 l2, lexLe l1 l2 = true ∨ lexLe l2 l1 = true
  | [], _ => Or.inl rfl
  | _ :: _, [] => Or.inr rfl
  | a :: as, b :: bt => by
    rcases Nat.lt_trichotomy a b with h | h | h
    · left; simp [lexLe, h]
    · subst h
      rcases lexLe_total as bt with ih | ih
      · left; simp [lexLe, Nat.lt_irrefl, ih]
      · right; simp [lexLe, Nat.lt_irrefl, ih]
    · right; simp [lexLe, h]

theorem lexLe_trans : ∀ l1 l2 l3, lexLe l1 l2 = true → lexLe l2 l3 = true →
    lexLe l1 l3 = true
  | [], _, _ => fun _ _ => rfl
  | a :: as, [], _ => fun h _ => absurd h (by simp [lexLe])
  | a :: as, b :: bt, [] => fun _ h => absurd h (by simp [lexLe])
  | a :: as, b :: bt, c :: cs => by
    intro h1 h2
    simp only [lexLe] at h1 h2 ⊢
    by_cases hab : a < b
    · by_cases hbc : b < c
      · simp [show a < c from Nat.lt_trans hab hbc]
      · by_cases hcb : c < b
        · simp [hbc, hcb] at h2
        · have : b = c := by omega
          subst this
          simp [hab]
    · by_cases hba : b < a
      · simp [hab, hba] at h1
      · have : a = b := by omega
        subst this
        simp only [Nat.lt_irrefl, if_false] at h1 h2 ⊢
        by_cases hac : a < c
        · simp [hac]
        · by_cases hca : c < a
          · simp [hac, hca] at h2
          · have : a = c := by omega
            subst this
            simp only [Nat.lt_irrefl, if_false] at h1 h2 ⊢
            exact lexLe_trans as bt cs h1 h2

theorem lexLe_antisymm : ∀ l1 l2, lexLe l1 l2 = true → lexLe l2 l1 = true →
    l1 = l2
  | [], [] => fun _ _ => rfl
  | [], _ :: _ => fun _ h => absurd h (by simp [lexLe])
  | _ :: _, [] => fun h _ => absurd h (by simp [lexLe])
  | a :: as, b :: bt => by
    intro h1 h2
    simp only [lexLe] at h1 h2
    have hab : a = b := by
      by_cases h : a < b
      · simp [h, show ¬ b < a by omega] at h2
      · by_cases h' : b < a
        · simp [h, h'] at h1
        · omega
    subst hab
    simp only [Nat.lt_irrefl, if_false] at h1 h2
    exact congrArg (a :: ·) (lexLe_antisymm as bt h1 h2)

instance : IsAntisymm ByteStr (fun a b => lexLe a b = true) :=
  ⟨fun a b => lexLe_antisymm a b⟩

theorem lexLe_trans_coe : ∀ (a b c : ByteStr), lexLe a b → lexLe b c → lexLe a c :=
  fun a b c h1 h2 => lexLe_trans a b c h1 h2

theorem lexLe_total_coe : ∀ (a b : ByteStr), lexLe a b || lexLe b a := by
  intro a b
  rcases lexLe_total a b with h | h <;> simp [h]

/-- One item of the GET parameter segment built by `api._get`:
`quote_plus(str(param)) + ':' + quote_plus(str(val), safe='@')`. -/
def encodePair (p : ByteStr × ByteStr) : ByteStr :=
  quotePlus [] p.1 ++ bsOf ":" ++ quotePlus [0x40] p.2

/-- The parameter path segment built by `api._get`: the encoded
`key:value` pairs, sorted (`params_list.sort()`) and comma-joined
(`','.join(params_list)`); empty when `api_params is None`. -/
def getParams : Option (List (ByteStr × ByteStr)) → ByteStr
  | none => []
  | some ps => List.intercalate (bsOf ",") ((ps.map encodePair).mergeSort lexLe)

/-- `self.api_url` as built by `api.__init__`:
`f'{protocol}://{domain}/api/v1'` with `protocol = ('http', 'https')[ssl]`. -/
def apiUrl (domain : ByteStr) (ssl : Bool) : ByteStr :=
  (if ssl then bsOf "https" else bsOf "http") ++ bsOf "://" ++ domain ++ bsOf "/api/v1"

/-- The URL requested by `api._get`:
`f'{self.api_url}/{api_method}/{get_params}'`. -/
def getUrl (domain : ByteStr) (ssl : Bool) (endpoint : ByteStr)
    (params : Option (List (ByteStr × ByteStr))) : ByteStr :=
  apiUrl domain ssl ++ bsOf "/" ++ endpoint ++ bsOf "/" ++ getParams params

/-! ### Claims about the GET serialization (C2, C4, C5) -/

/-- Claim C2: for every endpoint name and parameter mapping, `api._get` serializes
each key/value pair as percent-encoded key, a literal `:`, then
percent-encoded value with `@` left unescaped in the value; sorts the
resulting encoded pair strings lexicographically; joins them with commas;
and requests `{scheme}://{domain}/api/v1/{endpoint}/{encoded-params}`,
where the scheme is `https` when `ssl` is true and `http` otherwise. -/
theorem get_serialization_spec (domain : ByteStr) (ssl : Bool) (endpoint : ByteStr)
    (ps : List (ByteStr × ByteStr)) :
    ∃ L : List ByteStr,
      List.Perm L (ps.map (fun p => quotePlus [] p.1 ++ bsOf ":" ++ quotePlus [0x40] p.2)) ∧
      List.Pairwise (fun a b => lexLe a b = true) L ∧
      getUrl domain ssl endpoint (some ps) =
        (if ssl then bsOf "https" else bsOf "http") ++ bsOf "://" ++ domain ++
          bsOf "/api/v1" ++ bsOf "/" ++ endpoint ++ bsOf "/" ++
          List.intercalate (bsOf ",") L := by
  refine ⟨(ps.map encodePair).mergeSort lexLe, ?_, ?_, ?_⟩
  · exact (List.mergeSort_perm _ _).trans (List.Perm.refl _)
  · exact List.sorted_mergeSort lexLe_trans_coe lexLe_total_coe _
  · simp [getUrl, apiUrl, getParams, List.append_assoc]

/-- Claim C4: GET parameter serialization is insertion-order independent — any two
parameter lists holding the same key/value pairs produce the identical
encoded parameter segment, and hence the identical URL. -/
theorem get_params_order_independent (ps1 ps2 : List (ByteStr × ByteStr))
    (h : List.Perm ps1 ps2) :
    getParams (some ps1) = getParams (some ps2) ∧
    ∀ domain ssl endpoint,
      getUrl domain ssl endpoint (some ps1) = getUrl domain ssl endpoint (some ps2) := by
  have hp : List.Perm ((ps1.map encodePair).mergeSort lexLe)
      ((ps2.map encodePair).mergeSort lexLe) :=
    (List.mergeSort_perm _ _).trans
      ((h.map encodePair).trans (List.mergeSort_perm _ _).symm)
  have hs1 : List.Sorted (fun a b => lexLe a b = true) ((ps1.map encodePair).mergeSort lexLe) :=
    List.sorted_mergeSort lexLe_trans_coe lexLe_total_coe _
  have hs2 : List.Sorted (fun a b => lexLe a b = true) ((ps2.map encodePair).mergeSort lexLe) :=
    List.sorted_mergeSort lexLe_trans_coe lexLe_total_coe _
  have heq := List.eq_of_perm_of_sorted hp hs1 hs2
  constructor
  · simp [getParams, heq]
  · intro domain ssl endpoint
    simp [getUrl, getParams, heq]

/-- Witness for C4 at a concrete two-element swap. -/
theorem get_params_order_independent_witness :
    getParams (some [(bsOf "b", bsOf "2"), (bsOf "a", bsOf "1")]) =
      getParams (some [(bsOf "a", bsOf "1"), (bsOf "b", bsOf "2")]) :=
  (get_params_order_independent _ _ (List.Perm.swap _ _ _)).1

/-- Claim C5: the percent-encoding used by `api._get` round-trips — decoding the
encoded key/value recovers the original — and `@` occurring in a value is
emitted literally, never percent-encoded. -/
theorem quote_plus_roundtrip (k v : ByteStr)
    (hk : ∀ b ∈ k, b < 256) (hv : ∀ b ∈ v, b < 256) :
    unquotePlus (quotePlus [] k) = k ∧
    unquotePlus (quotePlus [0x40] v) = v ∧
    ∀ s : ByteStr, quotePlus [0x40] (0x40 :: s) = 0x40 :: quotePlus [0x40] s := by
  refine ⟨unquotePlus_quotePlus [] (by decide) k hk,
          unquotePlus_quotePlus [0x40] (by decide) v hv, ?_⟩
  intro s
  rw [quotePlus_cons]
  rfl

/-- Witness for C5 at a concrete key (with a space) and value (with `@`). -/
theorem quote_plus_roundtrip_witness :
    (∀ b ∈ bsOf "a key%", b < 256) ∧ (∀ b ∈ bsOf "j.smith@example.org", b < 256) ∧
    unquotePlus (quotePlus [] (bsOf "a key%")) = bsOf "a key%" ∧
    unquotePlus (quotePlus [0x40] (bsOf "j.smith@example.org")) = bsOf "j.smith@example.org" :=
  ⟨by decide, by decide,
   (quote_plus_roundtrip (bsOf "a key%") (bsOf "j.smith@example.org")
      (by decide) (by decide)).1,
   (quote_plus_roundtrip (bsOf "a key%") (bsOf "j.smith@example.org")
      (by decide) (by decide)).2.1⟩

/-! ### JSON values and the response handling of `_get` / `_post` -/

/-- Parsed JSON values as returned by `json.loads`. -/
inductive Json where
  | null
  | bool (b : Bool)
  | num (n : Int)
  | str (s : String)
  | arr (elems : List Json)
  | obj (fields : List (String × Json))

/-- First-match lookup in a parsed JSON object (`json.loads` produces
dictionaries with unique keys, so first match is dictionary lookup). -/
def jLookup : List (String × Json) → String → Option Json
  | [], _ => none
  | (k, v) :: rest, key => if k == key then some v else jLookup rest key

/-- Python `x == 'error'` for a parsed JSON value: true exactly for the
string `'error'` itself. -/
def isErrorStr : Json → Bool
  | .str s => s == "error"
  | _ => false

/-- Python hashability of a parsed JSON value: dicts and lists are
unhashable, everything else is hashable. -/
def pyHashable : Json → Bool
  | .obj _ => false
  | .arr _ => false
  | _ => true

/-- The exception classes of `talentlms/exceptions.py`. -/
inductive ExcKind where
  | BranchDoesNotExistError
  | CategoryDoesNotExistError
  | CourseDoesNotExistError
  | CourseExistsError
  | GroupDoesNotExistError
  | InvalidArgumentsError
  | InvalidRequestError
  | PasswordIncorrectError
  | UnitDoesNotExistError
  | UserAlreadyEnrolledError
  | UserAlreadyExistsError
  | UserDeletedError
  | UserDoesNotExistError
  | UserInactiveError
  | UserNotEnrolledError
  | WeakPasswordError
  | TalentLMSError
deriving DecidableEq

/-- The literal `exc_map` table of `exceptions.raise_error`. -/
def exc_map : List (String × ExcKind) := [
  ("The requested branch does not exist", .BranchDoesNotExistError),
  ("The requested category does not exist", .CategoryDoesNotExistError),
  ("The requested course does not exist", .CourseDoesNotExistError),
  ("The requested course is already a member of this branch", .CourseExistsError),
  ("The requested course is already a member of this group", .CourseExistsError),
  ("There is no group with such key", .GroupDoesNotExistError),
  ("The requested group does not exist", .GroupDoesNotExistError),
  ("Invalid arguments provided", .InvalidArgumentsError),
  ("The requested API action does not exist", .InvalidRequestError),
  ("Your login or password is incorrect. Please try again, making sure that CAPS LOCK key is off", .PasswordIncorrectError),
  ("The requested unit does not exist", .UnitDoesNotExistError),
  ("The requested user is already a member of this branch", .UserAlreadyEnrolledError),
  ("The requested user is already a member of this group", .UserAlreadyEnrolledError),
  ("The requested user is already enrolled in this course", .UserAlreadyEnrolledError),
  ("A user with the same email address already exists", .UserAlreadyExistsError),
  ("A user with the same login already exists", .UserAlreadyExistsError),
  ("The requested user is no longer available", .UserDeletedError),
  ("The requested user does not exist", .UserDoesNotExistError),
  ("Your account is inactive. Please activate the account using the instructions sent to you via e-mail. If you did not receive the e-mail, check your spam folder.", .UserInactiveError),
  ("The requested user is not a member of this branch", .UserNotEnrolledError),
  ("The requested user is not a member of this group", .UserNotEnrolledError),
  ("The requested user is not enrolled in this course", .UserNotEnrolledError),
  ("User does not have a progress registered for the survey", .UserNotEnrolledError),
  ("User does not have a progress registered for the test", .UserNotEnrolledError),
  ("Password is not strong enough (should have at least (1) upper case letter, at least (1) lower case letter, at least (1) number, at least (8) characters in length)", .WeakPasswordError)]

/-- `exceptions.raise_error`: the exception class the helper raises for a
given error-message string — `exc_map.get(message, TalentLMSError)`.  The
Python function never returns: it unconditionally raises the class this
function computes. -/
def raise_error (message : String) : ExcKind :=
  (exc_map.lookup message).getD .TalentLMSError

/-- `raise_error` applied to an arbitrary message value, as reached by
`raise_error(result['error']['message'], ...)`: a non-string (hashable)
message misses every string key of `exc_map`, so the generic class is
raised with it. -/
def raiseErrorVal : Json → ExcKind
  | .str m => raise_error m
  | _ => .TalentLMSError

/-- What `_get`/`_post` does after parsing a response body. -/
inductive RespOutcome where
  /-- the parsed value is returned unchanged -/
  | ok (v : Json)
  /-- `raise_error` was invoked and raised exception `k` carrying `message` -/
  | raised (k : ExcKind) (message : Json)
  /-- a raw Python `TypeError`/`KeyError` escaped (malformed error record) -/
  | pyFault

/-- The response handling shared verbatim by `api._get` and `api._post`:
`result = json.loads(resp.text)`, then
`if result is not None and 'error' in result:
   raise_error(result['error']['message'], (api_method, api_params))`,
then `return result`.  Python semantics of `'error' in result`: key
membership for a dict, element equality for a list, substring test for a
string, `TypeError` for a number or boolean; `None` is excluded by the
`is not None` guard before the membership test. -/
def processResponse : Json → RespOutcome
  | .null => .ok .null
  | .obj fields =>
    if fields.any (fun p => p.1 == "error") then
      match jLookup fields "error" with
      | some (.obj efields) =>
        (match jLookup efields "message" with
         | some m => if pyHashable m then .raised (raiseErrorVal m) m else .pyFault
         | none => .pyFault)
      | _ => .pyFault
    else .ok (.obj fields)
  | .arr elems => if elems.any isErrorStr then .pyFault else .ok (.arr elems)
  | .str s => if (s.data.tails.any (fun t => "error".data.isPrefixOf t)) then .pyFault else .ok (.str s)
  | .bool _ => .pyFault
  | .num _ => .pyFault

theorem lookup_of_mem_nodup {β : Type} :
    ∀ {l : List (String × β)}, (l.map Prod.fst).Nodup →
      ∀ {a : String} {b : β}, (a, b) ∈ l → l.lookup a = some b
  | [], _, _, _, h => absurd h (List.not_mem_nil _)
  | (k, v) :: rest, hnd, a, b, h => by
    rcases List.mem_cons.mp h with heq | hmem
    · obtain ⟨rfl, rfl⟩ := Prod.mk.injEq .. ▸ heq
      simp [List.lookup]
    · have hk : k ∉ rest.map Prod.fst := (List.nodup_cons.mp hnd).1
      have ha : a ∈ rest.map Prod.fst := List.mem_map_of_mem Prod.fst hmem
      have hne : (a == k) = false := by
        rcases Bool.eq_false_or_eq_true (a == k) with ht | hf
        · exact absurd (beq_iff_eq.mp ht ▸ ha) hk
        · exact hf
      simp only [List.lookup, hne]
      exact lookup_of_mem_nodup (List.nodup_cons.mp hnd).2 hmem

theorem lookup_eq_none_of_forall_ne {β : Type} :
    ∀ {l : List (String × β)} {a : String}, (∀ p ∈ l, p.1 ≠ a) → l.lookup a = none
  | [], _, _ => rfl
  | (k, v) :: rest, a, h => by
    have hne : (a == k) = false := by
      rcases Bool.eq_false_or_eq_true (a == k) with ht | hf
      · exact absurd (beq_iff_eq.mp ht).symm (h (k, v) (List.mem_cons_self _ _))
      · exact hf
    simp only [List.lookup, hne]
    exact lookup_eq_none_of_forall_ne (fun p hp => h p (List.mem_cons_of_mem _ hp))

theorem exc_map_keys_nodup : (exc_map.map Prod.fst).Nodup := by decide

/-- Claim C1: a response whose parsed JSON value contains an `error` key never
returns normally; when the error record carries a string message, the
error-mapping helper is invoked with it and raises the class the fixed
table assigns to that exact message, the generic `TalentLMSError` for any
message not in the table. -/
theorem error_response_always_raises :
    (∀ fields : List (String × Json), fields.any (fun p => p.1 == "error") = true →
       ∀ v, processResponse (.obj fields) ≠ .ok v) ∧
    (∀ fields efields m, jLookup fields "error" = some (.obj efields) →
       jLookup efields "message" = some (.str m) →
       fields.any (fun p => p.1 == "error") = true →
       processResponse (.obj fields) = .raised (raise_error m) (.str m)) ∧
    (∀ m k, (m, k) ∈ exc_map → raise_error m = k) ∧
    (∀ m, (∀ p ∈ exc_map, p.1 ≠ m) → raise_error m = .TalentLMSError) := by
  refine ⟨?_, ?_, ?_, ?_⟩
  · intro fields h v
    cases hj : jLookup fields "error" with
    | none => simp [processResponse, h, hj]
    | some val =>
      cases val with
      | obj efields =>
        cases hm : jLookup efields "message" with
        | none => simp [processResponse, h, hj, hm]
        | some mv => cases mv <;> simp [processResponse, h, hj, hm, pyHashable]
      | null => simp [processResponse, h, hj]
      | bool b => simp [processResponse, h, hj]
      | num n => simp [processResponse, h, hj]
      | str s => simp [processResponse, h, hj]
      | arr es => simp [processResponse, h, hj]
  · intro fields efields m hj hm h
    simp [processResponse, h, hj, hm, pyHashable, raiseErrorVal]
  · intro m k hmem
    have : exc_map.lookup m = some k := lookup_of_mem_nodup exc_map_keys_nodup hmem
    simp [raise_error, this]
  · intro m hm
    have : exc_map.lookup m = none := lookup_eq_none_of_forall_ne hm
    simp [raise_error, this]

/-- Witness for C1: a known message maps to its specific class, an unknown
one to the generic class. -/
theorem error_response_always_raises_witness :
    processResponse (Json.obj [("error", Json.obj [("message", Json.str "Invalid arguments provided")])]) =
      .raised (raise_error "Invalid arguments provided") (.str "Invalid arguments provided") ∧
    raise_error "Invalid arguments provided" = ExcKind.InvalidArgumentsError ∧
    raise_error "some new message" = ExcKind.TalentLMSError :=
  ⟨error_response_always_raises.2.1 _ _ _ rfl rfl rfl,
   error_response_always_raises.2.2.1 _ _ (by decide),
   error_response_always_raises.2.2.2 _ (by decide)⟩

/-- Claim C3: a parsed response (object or array) with no `error` key is returned
unchanged by the helper. -/
theorem no_error_key_returned_verbatim :
    (∀ fields : List (String × Json), fields.any (fun p => p.1 == "error") = false →
       processResponse (Json.obj fields) = .ok (Json.obj fields)) ∧
    (∀ elems : List Json, elems.any isErrorStr = false →
       processResponse (Json.arr elems) = .ok (Json.arr elems)) := by
  constructor <;> intro x h <;> simp [processResponse, h]

/-- Witness for C3 at a concrete object and a concrete array. -/
theorem no_error_key_returned_verbatim_witness :
    ([(("id" : String), Json.str "40457")].any (fun p => p.1 == "error") = false) ∧
    processResponse (Json.obj [("id", Json.str "40457")]) = .ok (Json.obj [("id", Json.str "40457")]) ∧
    processResponse (Json.arr [Json.num 1, Json.str "x"]) = .ok (Json.arr [Json.num 1, Json.str "x"]) :=
  ⟨rfl, no_error_key_returned_verbatim.1 _ rfl, no_error_key_returned_verbatim.2 _ rfl⟩

/-- Claim C10: a response body parsing to JSON `null` short-circuits the
`result is not None and 'error' in result` guard, so the helper returns
the null value without raising any typed exception. -/
theorem null_response_skips_error_check :
    processResponse Json.null = RespOutcome.ok Json.null := rfl

/-! ### Endpoint methods: `users`, `edit_user`, `get_timeline` -/

/-- Python scalar argument values passed to the endpoint methods. -/
inductive PyVal where
  | int (n : Int)
  | str (s : String)
deriving DecidableEq

/-- A single HTTP request issued through `api._get` or `api._post`. -/
inductive Req where
  | get (endpoint : String) (params : Option (List (String × PyVal)))
  | post (endpoint : String) (params : Option (List (String × PyVal)))
deriving DecidableEq

/-- Result of an endpoint method before any network traffic: either exactly
one request is issued, or a client-side `ValueError` aborts the call before
any request. -/
inductive MethodCall where
  | req (r : Req)
  | valueError (msg : String)
deriving DecidableEq

/-- The class-level `api.events` table (event type → description). -/
def events : List (String × String) := [
  ("user_login_user", "User log in"),
  ("user_register_user", "User registration"),
  ("user_self_register", "User self registration"),
  ("user_delete_user", "User deletion"),
  ("user_undelete_user", "Undelete user"),
  ("user_property_change", "User update"),
  ("user_create_payment", "User payment"),
  ("user_upgrade_level", "User level"),
  ("user_unlock_badge", "User badge"),
  ("course_create_course", "Course creation"),
  ("course_delete_course", "Course deletion"),
  ("course_undelete_course", "Undelete course"),
  ("course_property_change", "Course update"),
  ("course_add_user", "Added user to course"),
  ("course_remove_user", "Removed user from course"),
  ("course_completion", "User completed course"),
  ("course_failure", "User did not pass course"),
  ("course_reset_user_progress", "Reset progress"),
  ("branch_create_branch", "Branch creation"),
  ("branch_delete_branch", "Branch deletion"),
  ("branch_property_change", "Branch update"),
  ("branch_add_user", "Added user to branch"),
  ("branch_remove_user", "Removed user from branch"),
  ("branch_add_course", "Added course to branch"),
  ("branch_remove_course", "Removed course from branch"),
  ("group_create_group", "Group creation"),
  ("group_delete_group", "Group deletion"),
  ("group_property_change", "Group update"),
  ("group_add_user", "Added user to group"),
  ("group_remove_user", "Removed user from group"),
  ("group_add_course", "Added course to group"),
  ("group_remove_course", "Removed course from group"),
  ("certification_issue_certification", "Certification issued to user"),
  ("certification_refresh_certification", "Certification renewed"),
  ("certification_remove_certification", "Certification removed"),
  ("certification_expire_certification", "Certification expired"),
  ("unitprogress_test_completion", "Test completion"),
  ("unitprogress_test_failed", "Test fail"),
  ("unitprogress_survey_completion", "Survey completion"),
  ("unitprogress_assignment_answered", "Assignment submission"),
  ("unitprogress_assignment_graded", "Assignment grading"),
  ("unitprogress_ilt_graded", "ILT grading"),
  ("notification_create_notification", "Notification creation"),
  ("notification_delete_notification", "Notification deletion"),
  ("notification_update_notification", "Notification update"),
  ("automation_create_automation", "Automation creation"),
  ("automation_delete_automation", "Automation deletion"),
  ("automation_update_automation", "Automation update"),
  ("reports_create_custom_report", "Custom report creation"),
  ("reports_delete_custom_report", "Custom report deletion"),
  ("reports_update_custom_report", "Custom report update")]

/-- `api.get_timeline(event_type)`:
`if event_type not in self.events.keys(): raise ValueError(...)`, else
`return self._get('gettimeline', {'event_type': event_type})`. -/
def get_timeline (event_type : String) : MethodCall :=
  if !((events.map Prod.fst).contains event_type) then
    .valueError ("not a valid event type: " ++ event_type)
  else .req (.get "gettimeline" (some [("event_type", .str event_type)]))

/-- Python dict construction `{**d1, **d2}` for dicts with unique keys:
the keys of `d1` in order, values overridden by `d2` where present,
followed by the keys of `d2` not in `d1`, in order. -/
def pyDictUnion (d1 d2 : List (String × PyVal)) : List (String × PyVal) :=
  d1.map (fun p => (p.1, (d2.lookup p.1).getD p.2)) ++
  d2.filter (fun q => !((d1.map Prod.fst).contains q.1))

/-- `api.edit_user(user_id, user_info)`:
`if len(user_info) == 0: raise ValueError('user_info must have at least one property')`,
else `return self._post('edituser', {'user_id': int(user_id), **user_info})`. -/
def edit_user (user_id : Int) (user_info : List (String × PyVal)) : MethodCall :=
  if user_info.length = 0 then .valueError "user_info must have at least one property"
  else .req (.post "edituser" (some (pyDictUnion [("user_id", .int user_id)] user_info)))

/-- Python `str.isdigit` restricted to ASCII strings: non-empty and all
characters are decimal digits. -/
def pyIsdigit (s : String) : Bool := !s.data.isEmpty && s.data.all (fun c => c.isDigit)

/-- Python `int()` on an ASCII digit-only string. -/
def pyInt (s : String) : Int := s.data.foldl (fun a c => 10 * a + ((c.toNat : Int) - 48)) 0

/-- `api.users(search_term)`: no argument → full listing; an `int` or a
digit-only string → search by id (coerced to `int`); a string containing
`@` → search by email; any other string → search by username. -/
def users (search_term : Option PyVal) : Req :=
  match search_term with
  | none => .get "users" none
  | some (.int n) => .get "users" (some [("id", .int n)])
  | some (.str s) =>
    if pyIsdigit s then .get "users" (some [("id", .int (pyInt s))])
    else if s.data.contains '@' then .get "users" (some [("email", .str s)])
    else .get "users" (some [("username", .str s)])

/-- Claim C6: `get_timeline` with an event type that is not a key of the fixed
`events` table raises a client-side `ValueError` (no request is issued);
with a key of the table it issues exactly one GET to `gettimeline` with
the single parameter `event_type`. -/
theorem get_timeline_validates (et : String) :
    (et ∉ events.map Prod.fst →
       get_timeline et = .valueError ("not a valid event type: " ++ et)) ∧
    (et ∈ events.map Prod.fst →
       get_timeline et = .req (.get "gettimeline" (some [("event_type", .str et)]))) := by
  constructor <;> intro h <;>
    simp [get_timeline, List.contains, List.elem_eq_mem, h]

/-- Witness for C6: a known and an unknown event type. -/
theorem get_timeline_validates_witness :
    get_timeline "user_login_user" =
      .req (.get "gettimeline" (some [("event_type", .str "user_login_user")])) ∧
    get_timeline "bogus_event" =
      .valueError ("not a valid event type: " ++ "bogus_event") :=
  ⟨(get_timeline_validates _).2 (by decide), (get_timeline_validates _).1 (by decide)⟩

/-- Claim C7: `edit_user` with an empty `user_info` raises a client-side
`ValueError` (no request is issued); with a non-empty `user_info` it
issues exactly one POST to `edituser` whose body is `user_info` extended
with `user_id` coerced to an integer (when `user_info` does not itself
use the reserved `user_id` key, the body is literally that extension). -/
theorem edit_user_validates (uid : Int) (info : List (String × PyVal)) :
    (info = [] → edit_user uid info = .valueError "user_info must have at least one property") ∧
    (info ≠ [] →
       edit_user uid info =
         .req (.post "edituser" (some (pyDictUnion [("user_id", .int uid)] info))) ∧
       ("user_id" ∉ info.map Prod.fst →
          pyDictUnion [("user_id", .int uid)] info = ("user_id", .int uid) :: info)) := by
  constructor
  · intro h; subst h; rfl
  · intro h
    constructor
    · simp [edit_user, List.length_eq_zero, h]
    · intro hk
      have hl : info.lookup "user_id" = none :=
        lookup_eq_none_of_forall_ne
          (fun p hp hpe => hk (hpe ▸ List.mem_map_of_mem Prod.fst hp))
      simp [pyDictUnion, hl]
      intro a b hab hae
      exact hk (hae ▸ List.mem_map_of_mem Prod.fst hab)

/-- Witness for C7: an empty and a singleton update payload. -/
theorem edit_user_validates_witness :
    edit_user 40457 [] = .valueError "user_info must have at least one property" ∧
    edit_user 40457 [("login", .str "johnsmith")] =
      .req (.post "edituser" (some [("user_id", .int 40457), ("login", .str "johnsmith")])) := by
  constructor
  · exact (edit_user_validates 40457 []).1 rfl
  · obtain ⟨he, hb⟩ :=
      (edit_user_validates 40457 [("login", PyVal.str "johnsmith")]).2 (by decide)
    rw [he, hb (by decide)]

/-- Claim C9: the dispatch of `api.users` on its search term — no argument,
integer, digit-only string, string containing `@`, and any other string. -/
theorem users_dispatch :
    users none = .get "users" none ∧
    (∀ n : Int, users (some (.int n)) = .get "users" (some [("id", .int n)])) ∧
    (∀ s, pyIsdigit s = true →
       users (some (.str s)) = .get "users" (some [("id", .int (pyInt s))])) ∧
    (∀ s, pyIsdigit s = false → s.data.contains '@' = true →
       users (some (.str s)) = .get "users" (some [("email", .str s)])) ∧
    (∀ s, pyIsdigit s = false → s.data.contains '@' = false →
       users (some (.str s)) = .get "users" (some [("username", .str s)])) := by
  refine ⟨rfl, fun n => rfl, ?_, ?_, ?_⟩
  · intro s h; simp [users, h]
  · intro s h h'
    simp [users, h, h']
    exact List.elem_iff.mp h'
  · intro s h h'
    simp [users, h, h']
    intro hm
    have hel : s.data.contains '@' = true := List.elem_eq_true_of_mem hm
    rw [hel] at h'
    simp at h'

/-- Witness for C9 at the four concrete search-term shapes. -/
theorem users_dispatch_witness :
    users none = .get "users" none ∧
    users (some (.int 40457)) = .get "users" (some [("id", .int 40457)]) ∧
    users (some (.str "40457")) = .get "users" (some [("id", .int (pyInt "40457"))]) ∧
    users (some (.str "j@example.org")) = .get "users" (some [("email", .str "j@example.org")]) ∧
    users (some (.str "john.smith")) = .get "users" (some [("username", .str "john.smith")]) :=
  ⟨users_dispatch.1, users_dispatch.2.1 _,
   users_dispatch.2.2.1 _ (by decide),
   users_dispatch.2.2.2.1 _ (by decide) (by decide),
   users_dispatch.2.2.2.2 _ (by decide) (by decide)⟩

/-! ### Client state (C8) -/

/-- The instance attributes set by `api.__init__` — the whole client-side
state of an `api` object. -/
structure Config where
  api_url : String
  auth_user : String
  auth_pass : String
deriving DecidableEq

/-- `api.__init__(domain, api_key, ssl)`:
`protocol = ('http', 'https')[ssl]`,
`self.api_url = f'{protocol}://{domain}/api/v1'`,
`self.auth = HTTPBasicAuth(api_key, '')`. -/
def api_init (domain api_key : String) (ssl : Bool) : Config :=
  { api_url := (if ssl then "https" else "http") ++ "://" ++ domain ++ "/api/v1",
    auth_user := api_key,
    auth_pass := "" }

/-- One client call: an embedded endpoint method (or raw helper call)
with the server's parsed JSON reply. -/
inductive Call where
  | usersCall (search_term : Option PyVal) (response : Json)
  | editUserCall (user_id : Int) (user_info : List (String × PyVal)) (response : Json)
  | getTimelineCall (event_type : String) (response : Json)
  | rawGet (endpoint : String) (params : Option (List (String × PyVal))) (response : Json)
  | rawPost (endpoint : String) (params : Option (List (String × PyVal))) (response : Json)

/-- Everything a call can do, as observed by the caller. -/
inductive CallOutcome where
  | value (v : Json)
  | exc (k : ExcKind) (message : Json)
  | pyFault
  | valueError (msg : String)

def runReq (_r : Req) (response : Json) : CallOutcome :=
  match processResponse response with
  | .ok v => .value v
  | .raised k m => .exc k m
  | .pyFault => .pyFault

def runMethod (m : MethodCall) (response : Json) : CallOutcome :=
  match m with
  | .req r => runReq r response
  | .valueError s => .valueError s

/-- One call against the client state.  The source assigns to `self` only
inside `__init__` (`api.py` lines 68–71), so the embedded state passes
through every call, successful or raising, unchanged. -/
def step (cfg : Config) (c : Call) : Config × CallOutcome :=
  match c with
  | .usersCall st resp => (cfg, runReq (users st) resp)
  | .editUserCall uid info resp => (cfg, runMethod (edit_user uid info) resp)
  | .getTimelineCall et resp => (cfg, runMethod (get_timeline et) resp)
  | .rawGet ep ps resp => (cfg, runReq (.get ep ps) resp)
  | .rawPost ep ps resp => (cfg, runReq (.post ep ps) resp)

/-- Claim C8: the client configuration is fixed at construction — every endpoint
method and helper call, whether it returns a value or raises, leaves the
client state exactly as it was; there is no other client-side state. -/
theorem client_state_immutable (cfg : Config) (c : Call) : (step cfg c).1 = cfg := by
  cases c <;> rfl

end PyTalentLMS
